import Mathlib

/-!
Verification of the Audit Ledger core of `audit.py` (cash-register audit app).

Shallow embedding conventions:

* Monetary amounts (`counted_value`, `expected_value`, `difference`, `tef_value`)
  are modelled as rationals (`ℚ`).  The source stores Python floats in SQLite
  `REAL` columns; all amounts involved in the claims are 2-decimal currency
  values and the thresholds are `±0.005`, so rational arithmetic is the exact
  semantics the spec describes.

* `audit_datetime` is stored in the source as the string
  `now.strftime('%Y-%m-%d %H:%M:%S')` and compared with SQL string comparison.
  For well-formed zero-padded strings of this shape, lexicographic order
  coincides with chronological order, and a civil date `d` corresponds to the
  half-open interval of seconds `[d*86400, (d+1)*86400)`.  We therefore model a
  timestamp as a natural number of seconds on the civil (America/Sao_Paulo)
  clock, and a civil date as a natural day number; the date-filter comparisons
  below mirror the SQL conditions of `load_audits_filtered` exactly.

* The SQLite table with `id INTEGER PRIMARY KEY AUTOINCREMENT` is modelled as a
  list of rows plus a `nextId` counter that is never reused after deletion.

* `ORDER BY audit_datetime DESC` names no secondary sort key; SQLite returns
  equal-key rows in table-scan (insertion) order for this query.  We model the
  ordering as a stable sort (`List.insertionSort`) on the timestamp key.
-/

/-- One row of the `audits` table (schema created by `init_db`). -/
structure AuditRecord where
  id : Nat
  pdv_number : String
  audit_datetime : Nat
  operator_name : String
  supervisor_name : String
  prevention_name : String
  counted_value : ℚ
  expected_value : ℚ
  difference : ℚ
  tef_value : ℚ
deriving DecidableEq, Repr

/-- The persistent state owned by SQLite: the rows of `audits` plus the
`AUTOINCREMENT` counter (ids are never reused after deletion). -/
structure LedgerDB where
  rows : List AuditRecord
  nextId : Nat
deriving DecidableEq, Repr

/-- `ADMIN_PASSWORD = "123456"` (line 12 of the source). -/
def ADMIN_PASSWORD : String := "123456"

/-- Seconds in one civil day; a civil date `d` covers `[d*86400, (d+1)*86400)`. -/
def secondsPerDay : Nat := 86400

/-- The civil calendar date of a timestamp. -/
def civil_date (t : Nat) : Nat := t / secondsPerDay

/-- `save_audit` (lines 61-77): inserts one row holding exactly the passed
values, with the auto-assigned id and the current timestamp `now`; returns the
new row id (`cursor.lastrowid`).  No validation and no recomputation happens
here. -/
def save_audit (db : LedgerDB) (pdv operator supervisor prevention : String)
    (counted expected difference tef : ℚ) (now : Nat) : LedgerDB × Nat :=
  let row : AuditRecord :=
    { id := db.nextId
      pdv_number := pdv
      audit_datetime := now
      operator_name := operator
      supervisor_name := supervisor
      prevention_name := prevention
      counted_value := counted
      expected_value := expected
      difference := difference
      tef_value := tef }
  ({ rows := db.rows ++ [row], nextId := db.nextId + 1 }, db.nextId)

/-- The WHERE clause built by `load_audits_filtered` (lines 85-93):
`audit_datetime >= 'start 00:00:00'` and
`audit_datetime < '(end + 1 day) 00:00:00'`, each only when the bound is
given. -/
def date_cond (start_date end_date : Option Nat) (r : AuditRecord) : Bool :=
  (match start_date with
   | some s => decide (s * secondsPerDay ≤ r.audit_datetime)
   | none => true)
  &&
  (match end_date with
   | some e => decide (r.audit_datetime < (e + 1) * secondsPerDay)
   | none => true)

/-- The sort key of `ORDER BY audit_datetime DESC`: `a` may come before `b`
when `b`'s timestamp is not larger. -/
def byDatetimeDesc (a b : AuditRecord) : Prop :=
  b.audit_datetime ≤ a.audit_datetime

instance : DecidableRel byDatetimeDesc :=
  fun a b => inferInstanceAs (Decidable (b.audit_datetime ≤ a.audit_datetime))

instance : IsTotal AuditRecord byDatetimeDesc :=
  ⟨fun a b => Nat.le_total b.audit_datetime a.audit_datetime⟩

instance : IsTrans AuditRecord byDatetimeDesc :=
  ⟨fun _ _ _ h1 h2 => Nat.le_trans h2 h1⟩

/-- `load_audits_filtered` (lines 79-99): `SELECT * FROM audits` with the
optional date conditions, `ORDER BY audit_datetime DESC` (no secondary key;
stable on scan order). -/
def load_audits_filtered (db : LedgerDB) (start_date end_date : Option Nat) :
    List AuditRecord :=
  List.insertionSort byDatetimeDesc (db.rows.filter (date_cond start_date end_date))

/-- `delete_audit_by_id` (lines 101-109): `DELETE FROM audits WHERE id = ?`,
returning `cursor.rowcount` (the number of rows removed). -/
def delete_audit_by_id (db : LedgerDB) (audit_id : Nat) : LedgerDB × Nat :=
  let remaining := db.rows.filter (fun r => r.id ≠ audit_id)
  ({ db with rows := remaining }, db.rows.length - remaining.length)

/-- `delete_all_audits` (lines 111-119): `DELETE FROM audits`, returning
`cursor.rowcount`. -/
def delete_all_audits (db : LedgerDB) : LedgerDB × Nat :=
  ({ db with rows := [] }, db.rows.length)

/-- The three ways a difference is presented (shortage / overage / balanced). -/
inductive DiffClass where
  | SHORTAGE
  | OVERAGE
  | BALANCED
deriving DecidableEq, Repr

/-- The loop body of `highlight_difference` (lines 142-155): the CSS style
attached to one difference value of the history table. -/
def highlight_style (val : ℚ) : String :=
  if val < -0.005 then
    "background-color: #fcebeb; color: #cc0000; font-weight: bold;"
  else if val > 0.005 then
    "background-color: #ecfced; color: #008000; font-weight: bold;"
  else
    ""

/-- `highlight_difference` (lines 142-155): one style per value of the column. -/
def highlight_difference (s : List ℚ) : List String :=
  s.map highlight_style

/-- The branch structure of the one-shot alert renderer (lines 202-228):
`difference < -0.005` shows "QUEBRA DE CAIXA" (shortage), `difference > 0.005`
shows "SOBRA DE CAIXA" (overage), otherwise "CAIXA FECHADO" (balanced). -/
def alert_class (difference : ℚ) : DiffClass :=
  if difference < -0.005 then .SHORTAGE
  else if difference > 0.005 then .OVERAGE
  else .BALANCED

/-- The payload stored into `st.session_state.audit_result` (lines 319-324). -/
structure AlertData where
  pdv_number : String
  difference : ℚ
  counted_value : ℚ
  tef_value : ℚ
deriving DecidableEq, Repr

/-- Session-level state: the database, `st.session_state.last_audit_id` and the
one-shot `st.session_state.audit_result` slot (an `Option`: it holds at most
one pending alert). -/
structure AppState where
  db : LedgerDB
  last_audit_id : Nat
  audit_result : Option AlertData
deriving DecidableEq, Repr

/-- The form-submission branch of `app_main` (lines 294-327): if any personnel
selector is still the placeholder, nothing is saved; otherwise it computes
`difference = counted_value - tef_value` and `expected_value = 0.00`, calls
`save_audit`, records the new id and publishes the alert payload into the
one-shot `audit_result` slot. -/
def app_submit_audit (s : AppState) (pdv operator supervisor prevention : String)
    (counted tef : ℚ) (now : Nat) : AppState :=
  if operator = "Selecione..." ∨ supervisor = "Selecione..." ∨ prevention = "Selecione..." then
    s
  else
    let difference := counted - tef
    let expected : ℚ := 0
    let saved := save_audit s.db pdv operator supervisor prevention counted expected difference tef now
    { db := saved.1
      last_audit_id := saved.2
      audit_result := some { pdv_number := pdv, difference := difference,
                             counted_value := counted, tef_value := tef } }

/-- The alert block at the top of `app_main` (lines 192-231): if a result is
pending it is rendered (first component) and the slot is cleared (line 231);
otherwise nothing is rendered and the state is untouched. -/
def app_render_alert (s : AppState) : Option AlertData × AppState :=
  match s.audit_result with
  | some result => (some result, { s with audit_result := none })
  | none => (none, s)

/-- The admin bulk-delete form of `app_main` (lines 464-471): on the exact
password match every row is deleted and the count reported; otherwise an error
is shown and nothing is deleted (`none`). -/
def app_delete_all_submit (db : LedgerDB) (password_input : String) :
    LedgerDB × Option Nat :=
  if password_input = ADMIN_PASSWORD then
    let deleted := delete_all_audits db
    (deleted.1, some deleted.2)
  else
    (db, none)

/-- The operations a user can trigger against the ledger. -/
inductive LedgerOp where
  | create (pdv operator supervisor prevention : String) (counted tef : ℚ) (now : Nat)
  | deleteOne (audit_id : Nat)
  | deleteAll (password : String)
deriving Repr

/-- One user interaction applied to the session state, as `app_main` wires the
widgets to the store functions (bulk-delete success also resets
`last_audit_id` to 0, line 468). -/
def apply_op (s : AppState) : LedgerOp → AppState
  | .create pdv operator supervisor prevention counted tef now =>
      app_submit_audit s pdv operator supervisor prevention counted tef now
  | .deleteOne i =>
      { s with db := (delete_audit_by_id s.db i).1 }
  | .deleteAll pw =>
      match app_delete_all_submit s.db pw with
      | (db2, some _) => { s with db := db2, last_audit_id := 0 }
      | (db2, none) => { s with db := db2 }

/-- The state right after `init_db` on a fresh database: no rows, first
auto-assigned id is 1, no pending alert. -/
def init_state : AppState :=
  { db := { rows := [], nextId := 1 }, last_audit_id := 0, audit_result := none }

/-- Running a sequence of user interactions from the fresh state. -/
def run_ops (ops : List LedgerOp) : AppState :=
  ops.foldl apply_op init_state

/-- A spreadsheet cell: a string, a natural number (id / timestamp), or a raw
numeric (monetary) value. -/
inductive Cell where
  | s (v : String)
  | n (v : Nat)
  | q (v : ℚ)
deriving DecidableEq, Repr

/-- The column labels of `df_display` (lines 351-366): the select order of the
ten columns, then renamed.  Note `PDV` precedes `Data/Hora (BR)` and the
trailing `Valor Esperado (R$)` column is present. -/
def df_display_columns : List String :=
  ["ID", "PDV", "Data/Hora (BR)", "Operador(a)", "Fiscal", "Auditor",
   "Dinheiro Contado (R$)", "TEF Contado (R$)", "Diferença (Dinheiro - TEF)",
   "Valor Esperado (R$)"]

/-- `cols_to_display` (lines 369-372): the nine reordered columns of the
on-screen table (not of the export). -/
def cols_to_display : List String :=
  ["ID", "Data/Hora (BR)", "PDV", "Operador(a)", "Fiscal", "Auditor",
   "Dinheiro Contado (R$)", "TEF Contado (R$)", "Diferença (Dinheiro - TEF)"]

/-- Modelled from the spec (§6): the column list the spec claims for the
exported spreadsheet — ID, Date/Time, Terminal, Operator, Supervisor, Auditor,
Counted-Cash, Counted-Electronic, Difference, and no other columns. -/
def spec_export_columns : List String :=
  ["ID", "Data/Hora (BR)", "PDV", "Operador(a)", "Fiscal", "Auditor",
   "Dinheiro Contado (R$)", "TEF Contado (R$)", "Diferença (Dinheiro - TEF)"]

/-- One row of `df_display`, in its column order, with raw (unformatted) cell
values: `format_currency_br` is applied only to the styled on-screen table
(lines 380-384), never to the download data. -/
def df_display_row (r : AuditRecord) : List Cell :=
  [.n r.id, .s r.pdv_number, .n r.audit_datetime, .s r.operator_name,
   .s r.supervisor_name, .s r.prevention_name, .q r.counted_value,
   .q r.tef_value, .q r.difference, .q r.expected_value]

/-- `convert_df_to_excel` (lines 125-133) applied to `df_display`
(line 390): a single sheet whose header row is `df_display_columns` followed by
one row per record, `index=False`. -/
def convert_df_to_excel (records : List AuditRecord) : List (List Cell) :=
  (df_display_columns.map Cell.s) :: records.map df_display_row

/-- The difference invariant the spec states for every stored record. -/
def diff_inv (s : AppState) : Prop :=
  ∀ r ∈ s.db.rows, r.difference = r.counted_value - r.tef_value

/-- A sample stored row used in concrete witnesses and counterexamples. -/
def sample_row (i t : Nat) : AuditRecord :=
  { id := i, pdv_number := "1", audit_datetime := t, operator_name := "A",
    supervisor_name := "B", prevention_name := "C", counted_value := 10,
    expected_value := 0, difference := 2, tef_value := 8 }

/-! ## Helper lemmas -/

/-- A record is returned by a filtered query exactly when it is stored and
satisfies the date condition. -/
lemma mem_load_audits_filtered {db : LedgerDB} {sd ed : Option Nat} {r : AuditRecord} :
    r ∈ load_audits_filtered db sd ed ↔ r ∈ db.rows ∧ date_cond sd ed r = true := by
  unfold load_audits_filtered
  rw [List.mem_insertionSort, List.mem_filter]

/-- The `rowcount` reported by `delete_audit_by_id` is the number of stored
records carrying the requested id. -/
lemma delete_count_eq_countP (db : LedgerDB) (x : Nat) :
    (delete_audit_by_id db x).2 = db.rows.countP (fun r => r.id = x) := by
  unfold delete_audit_by_id
  have hf : (List.filter (fun r : AuditRecord => decide (r.id ≠ x)) db.rows).length
      = db.rows.countP (fun r : AuditRecord => decide (r.id ≠ x)) :=
    (List.countP_eq_length_filter _ _).symm
  have h := List.length_eq_countP_add_countP (fun r : AuditRecord => decide (r.id = x)) db.rows
  have h2 : db.rows.countP (fun a : AuditRecord => decide (¬ decide (a.id = x) = true))
      = db.rows.countP (fun r : AuditRecord => decide (r.id ≠ x)) := by
    apply List.countP_congr
    intro a _
    simp
  simp only [hf, h2]
  omega

/-- When ids are unique, a stored record with the requested id makes that
count exactly one. -/
lemma countP_id_eq_one {rows : List AuditRecord} {x : Nat}
    (hn : (rows.map AuditRecord.id).Nodup) {r : AuditRecord} (hr : r ∈ rows)
    (hx : r.id = x) : rows.countP (fun a => a.id = x) = 1 := by
  induction rows with
  | nil => cases hr
  | cons a l ih =>
      simp only [List.map_cons, List.nodup_cons] at hn
      rcases List.mem_cons.mp hr with h | h
      · subst h
        rw [List.countP_cons]
        have hz : l.countP (fun a => a.id = x) = 0 := by
          rw [List.countP_eq_zero]
          intro b hb
          simp only [decide_eq_true_eq]
          intro hbx
          exact hn.1 (hx ▸ hbx ▸ List.mem_map_of_mem AuditRecord.id hb)
        simp [hz, hx]
      · rw [List.countP_cons]
        have h1 : l.countP (fun a => a.id = x) = 1 := ih hn.2 h
        have hax : ¬ a.id = x := by
          intro hax
          exact hn.1 (hax ▸ hx ▸ List.mem_map_of_mem AuditRecord.id h)
        simp [h1, hax]

/-- Each single user interaction preserves the difference invariant. -/
lemma diff_inv_apply_op {s : AppState} (h : diff_inv s) (op : LedgerOp) :
    diff_inv (apply_op s op) := by
  cases op with
  | create pdv operator supervisor prevention counted tef now =>
      simp only [apply_op, app_submit_audit]
      split
      · exact h
      · intro r hr
        simp only [save_audit, List.mem_append, List.mem_singleton] at hr
        rcases hr with hr | hr
        · exact h r hr
        · subst hr
          rfl
  | deleteOne i =>
      intro r hr
      simp only [apply_op, delete_audit_by_id, List.mem_filter] at hr
      exact h r hr.1
  | deleteAll pw =>
      intro r hr
      by_cases hpw : pw = ADMIN_PASSWORD
      · simp [apply_op, app_delete_all_submit, delete_all_audits, hpw] at hr
      · simp [apply_op, app_delete_all_submit, delete_all_audits, hpw] at hr
        exact h r hr

/-- The difference invariant is preserved along any interaction sequence. -/
lemma diff_inv_foldl (ops : List LedgerOp) (s : AppState) (h : diff_inv s) :
    diff_inv (ops.foldl apply_op s) := by
  induction ops generalizing s with
  | nil => exact h
  | cons op ops ih => exact ih (apply_op s op) (diff_inv_apply_op h op)

/-! ## Claim theorems -/

/-- C1: every record reachable through the app operations stores
`difference = counted_value - tef_value`, the value fixed at its creation;
delete-by-id never alters a surviving record, delete-all only empties the
table, and queries return stored records verbatim, so the stored difference is
never mutated after creation by any operation. -/
theorem C1_difference_invariant :
    (∀ ops : List LedgerOp, ∀ r ∈ (run_ops ops).db.rows,
        r.difference = r.counted_value - r.tef_value) ∧
    (∀ (db : LedgerDB) (i : Nat) (r : AuditRecord),
        r ∈ (delete_audit_by_id db i).1.rows → r ∈ db.rows) ∧
    (∀ db : LedgerDB, (delete_all_audits db).1.rows = []) ∧
    (∀ (db : LedgerDB) (sd ed : Option Nat) (r : AuditRecord),
        r ∈ load_audits_filtered db sd ed → r ∈ db.rows) :=
  ⟨fun ops => diff_inv_foldl ops init_state (fun r hr => by cases hr),
   fun db i r hr => (List.mem_filter.mp hr).1,
   fun _ => rfl,
   fun db sd ed r hr => (mem_load_audits_filtered.mp hr).1⟩

/-- Witness for C1: a concrete create of counted 100 and TEF 120 stores the
difference -20 = 100 - 120. -/
theorem C1_difference_invariant_witness :
    ({ id := 1, pdv_number := "5", audit_datetime := 8640000, operator_name := "A",
       supervisor_name := "B", prevention_name := "C", counted_value := 100,
       expected_value := 0, difference := -20, tef_value := 120 } : AuditRecord).difference
      = (100 : ℚ) - 120 :=
  C1_difference_invariant.1 [.create "5" "A" "B" "C" 100 120 8640000] _
    (by simp [run_ops, apply_op, app_submit_audit, save_audit, init_state]; norm_num)

/-- C2: the classification is a total deterministic function of the difference
partitioning ℚ into exactly three intervals with exclusive thresholds (the
boundary values -0.005 and 0.005 are BALANCED), and the history-row
highlighting marks a row red, green or neutral exactly when the one-shot alert
classifies the same difference as SHORTAGE, OVERAGE or BALANCED respectively,
so the two presentations never disagree. -/
theorem C2_classification_partition :
    (∀ d : ℚ,
      (alert_class d = .SHORTAGE ↔ d < -0.005) ∧
      (alert_class d = .OVERAGE ↔ 0.005 < d) ∧
      (alert_class d = .BALANCED ↔ (-0.005 ≤ d ∧ d ≤ 0.005))) ∧
    alert_class (-0.005) = .BALANCED ∧
    alert_class 0.005 = .BALANCED ∧
    (∀ v : ℚ,
      (highlight_style v = "background-color: #fcebeb; color: #cc0000; font-weight: bold;"
          ↔ alert_class v = .SHORTAGE) ∧
      (highlight_style v = "background-color: #ecfced; color: #008000; font-weight: bold;"
          ↔ alert_class v = .OVERAGE) ∧
      (highlight_style v = "" ↔ alert_class v = .BALANCED)) ∧
    (∀ l : List ℚ, highlight_difference l = l.map highlight_style) := by
  refine ⟨?_, ?_, ?_, ?_, fun l => rfl⟩
  · intro d
    unfold alert_class
    refine ⟨?_, ?_, ?_⟩ <;> split_ifs with h1 h2 <;> simp_all <;> linarith
  · norm_num [alert_class]
  · norm_num [alert_class]
  · intro v
    unfold highlight_style alert_class
    refine ⟨?_, ?_, ?_⟩ <;> (split_ifs <;> simp_all)

/-- C3: bulk delete with a secret other than the configured admin secret
(exact, case-sensitive string comparison) deletes nothing and leaves every
query unchanged, signalling rejection with `none`; with the correct secret it
empties the table, reports the number of deleted rows, and every subsequent
query returns the empty sequence. -/
theorem C3_delete_all_requires_secret :
    (∀ (db : LedgerDB) (pw : String), pw ≠ ADMIN_PASSWORD →
        app_delete_all_submit db pw = (db, none) ∧
        ∀ sd ed, load_audits_filtered (app_delete_all_submit db pw).1 sd ed
          = load_audits_filtered db sd ed) ∧
    (∀ db : LedgerDB,
        app_delete_all_submit db ADMIN_PASSWORD
          = ({ db with rows := [] }, some db.rows.length) ∧
        ∀ sd ed, load_audits_filtered (app_delete_all_submit db ADMIN_PASSWORD).1 sd ed = []) := by
  constructor
  · intro db pw hpw
    have h : app_delete_all_submit db pw = (db, none) := by
      unfold app_delete_all_submit
      rw [if_neg hpw]
    exact ⟨h, fun sd ed => by rw [h]⟩
  · intro db
    have h : app_delete_all_submit db ADMIN_PASSWORD
        = ({ db with rows := [] }, some db.rows.length) := by
      unfold app_delete_all_submit delete_all_audits
      rw [if_pos rfl]
    refine ⟨h, fun sd ed => ?_⟩
    rw [h]
    rfl

/-- Witness for C3: the wrong secret "999999" leaves a one-row table intact
and reports no deletion. -/
theorem C3_delete_all_requires_secret_witness :
    app_delete_all_submit { rows := [sample_row 1 200000], nextId := 2 } "999999"
      = ({ rows := [sample_row 1 200000], nextId := 2 }, none) :=
  (C3_delete_all_requires_secret.1 _ "999999" (by decide)).1

/-- C4: with both bounds given, the query returns exactly the stored records
whose timestamp lies in the closed interval from start 00:00:00 to
end 23:59:59; in particular with start = end = D it returns exactly the
records whose civil date is D. -/
theorem C4_date_range_closed_interval :
    ∀ (db : LedgerDB) (s e : Nat) (r : AuditRecord),
      (r ∈ load_audits_filtered db (some s) (some e) ↔
         r ∈ db.rows ∧ s * secondsPerDay ≤ r.audit_datetime ∧
           r.audit_datetime ≤ e * secondsPerDay + 86399) ∧
      (r ∈ load_audits_filtered db (some s) (some s) ↔
         r ∈ db.rows ∧ civil_date r.audit_datetime = s) := by
  intro db s e r
  constructor
  · rw [mem_load_audits_filtered]
    simp only [date_cond, secondsPerDay, Bool.and_eq_true, decide_eq_true_eq]
    constructor
    · rintro ⟨h1, h2, h3⟩
      exact ⟨h1, h2, by omega⟩
    · rintro ⟨h1, h2, h3⟩
      exact ⟨h1, h2, by omega⟩
  · rw [mem_load_audits_filtered]
    simp only [date_cond, secondsPerDay, civil_date, Bool.and_eq_true, decide_eq_true_eq]
    constructor
    · rintro ⟨h1, h2, h3⟩
      exact ⟨h1, by omega⟩
    · rintro ⟨h1, h2⟩
      exact ⟨h1, by omega, by omega⟩

/-- C5 (amended): every query result is sorted descending by timestamp and is
a permutation of the date-filtered stored rows; the query specifies no
tie-break on id — records with equal timestamps appear in table-scan
(insertion, ascending id) order, not in descending id order. -/
theorem C5_query_ordering :
    ∀ (db : LedgerDB) (sd ed : Option Nat),
      List.Sorted byDatetimeDesc (load_audits_filtered db sd ed) ∧
      (load_audits_filtered db sd ed).Perm (db.rows.filter (date_cond sd ed)) :=
  fun db sd ed =>
    ⟨List.sorted_insertionSort byDatetimeDesc (db.rows.filter (date_cond sd ed)),
     List.perm_insertionSort byDatetimeDesc (db.rows.filter (date_cond sd ed))⟩

/-- Counterexample for C5 as stated: two records with equal timestamps and ids
1 and 2 come back in ascending id order, so the result is not ordered by
descending id within equal timestamps. -/
theorem C5_query_ordering_cex :
    (load_audits_filtered { rows := [sample_row 1 200000, sample_row 2 200000], nextId := 3 }
        none none).map AuditRecord.id = [1, 2] ∧
    ¬ List.Pairwise
        (fun a b : AuditRecord =>
          b.audit_datetime < a.audit_datetime ∨
            (b.audit_datetime = a.audit_datetime ∧ b.id < a.id))
        (load_audits_filtered { rows := [sample_row 1 200000, sample_row 2 200000], nextId := 3 }
          none none) := by
  constructor <;> decide

/-- C6: delete-by-id keeps exactly the records whose id differs (so it never
fails and never changes a surviving record), reports 1 when a stored record
carries the id (ids being unique), no subsequent query returns that id, a
second call on the same id reports 0, and deleting an absent id reports 0 and
leaves the state unchanged. -/
theorem C6_delete_by_id :
    ∀ (db : LedgerDB) (x : Nat),
      ((delete_audit_by_id db x).1.rows = db.rows.filter (fun r => r.id ≠ x)) ∧
      ((db.rows.map AuditRecord.id).Nodup →
        ∀ r ∈ db.rows, r.id = x → (delete_audit_by_id db x).2 = 1) ∧
      (∀ r ∈ (delete_audit_by_id db x).1.rows, r.id ≠ x) ∧
      (∀ (sd ed : Option Nat) (r : AuditRecord),
          r ∈ load_audits_filtered (delete_audit_by_id db x).1 sd ed → r.id ≠ x) ∧
      (delete_audit_by_id (delete_audit_by_id db x).1 x).2 = 0 ∧
      ((∀ r ∈ db.rows, r.id ≠ x) → delete_audit_by_id db x = (db, 0)) := by
  intro db x
  have hmem : ∀ r ∈ (delete_audit_by_id db x).1.rows, r.id ≠ x := by
    intro r hr
    unfold delete_audit_by_id at hr
    have := (List.mem_filter.mp hr).2
    simpa using this
  refine ⟨rfl, ?_, hmem, ?_, ?_, ?_⟩
  · intro hn r hr hx
    rw [delete_count_eq_countP]
    exact countP_id_eq_one hn hr hx
  · intro sd ed r hr
    exact hmem r (mem_load_audits_filtered.mp hr).1
  · rw [delete_count_eq_countP]
    rw [List.countP_eq_zero]
    intro a ha
    simpa using hmem a ha
  · intro hall
    have hfil : db.rows.filter (fun r => decide (r.id ≠ x)) = db.rows :=
      List.filter_eq_self.mpr (fun a ha => by simpa using hall a ha)
    unfold delete_audit_by_id
    rw [hfil]
    simp

/-- Witness for C6: deleting id 1 from a one-row table reports 1; deleting the
absent id 99 reports 0 and changes nothing. -/
theorem C6_delete_by_id_witness :
    (delete_audit_by_id { rows := [sample_row 1 200000], nextId := 2 } 1).2 = 1 ∧
    delete_audit_by_id { rows := [sample_row 1 200000], nextId := 2 } 99
      = ({ rows := [sample_row 1 200000], nextId := 2 }, 0) :=
  ⟨(C6_delete_by_id _ 1).2.1 (by decide) (sample_row 1 200000) (by decide) (by decide),
   (C6_delete_by_id _ 99).2.2.2.2.2 (by decide)⟩

/-- C7: a filter whose start date is strictly after its end date selects
nothing: the query returns the empty sequence rather than failing. -/
theorem C7_inverted_range_returns_empty :
    ∀ (db : LedgerDB) (s e : Nat), e < s →
      load_audits_filtered db (some s) (some e) = [] := by
  intro db s e h
  unfold load_audits_filtered
  have hf : db.rows.filter (date_cond (some s) (some e)) = [] := by
    rw [List.filter_eq_nil_iff]
    intro a ha
    simp only [date_cond, secondsPerDay, Bool.and_eq_true, decide_eq_true_eq, not_and]
    intro h1
    omega
  rw [hf]
  rfl

/-- Witness for C7: start day 5 with end day 3 yields the empty result on a
non-empty table. -/
theorem C7_inverted_range_returns_empty_witness :
    load_audits_filtered { rows := [sample_row 1 200000], nextId := 2 } (some 5) (some 3) = [] :=
  C7_inverted_range_returns_empty _ 5 3 (by decide)

/-- Counterexample for C8 as stated: the export serializes `df_display`, whose
header differs from the claimed column list (which matches only the on-screen
`cols_to_display`): `PDV` precedes `Data/Hora (BR)` and a tenth column
`Valor Esperado (R$)` is present, already on the empty record sequence. -/
theorem C8_export_columns_cex :
    convert_df_to_excel [] ≠ [spec_export_columns.map Cell.s] ∧
    df_display_columns ≠ spec_export_columns ∧
    spec_export_columns = cols_to_display := by
  refine ⟨?_, ?_, ?_⟩ <;> decide

/-- C8 (amended): the export is a deterministic pure function of the record
sequence producing a single sheet whose columns are, in order, ID, Terminal,
Date/Time, Operator, Supervisor, Auditor, Counted-Cash, Counted-Electronic,
Difference, Expected-Value — Terminal before Date/Time and a trailing
Expected-Value column — with raw unformatted cell values (the Brazilian
currency formatting is applied only to the styled on-screen table). -/
theorem C8_export_actual_shape :
    ∀ records : List AuditRecord,
      convert_df_to_excel records
        = (df_display_columns.map Cell.s) :: records.map df_display_row ∧
      (convert_df_to_excel records).length = records.length + 1 ∧
      ∀ r : AuditRecord,
        df_display_row r
          = [.n r.id, .s r.pdv_number, .n r.audit_datetime, .s r.operator_name,
             .s r.supervisor_name, .s r.prevention_name, .q r.counted_value,
             .q r.tef_value, .q r.difference, .q r.expected_value] :=
  fun records => ⟨rfl, by simp [convert_df_to_excel], fun r => rfl⟩

/-- C9: the session alert slot is a one-shot mailbox: a successful create sets
it to exactly that create's classification payload (overwriting, never
queueing, any previous one), the next render pass displays the pending payload
and clears the slot, and a second consecutive render displays nothing. -/
theorem C9_one_shot_alert :
    (∀ (s : AppState) (pdv operator supervisor prevention : String) (counted tef : ℚ) (now : Nat),
        operator ≠ "Selecione..." → supervisor ≠ "Selecione..." → prevention ≠ "Selecione..." →
        (app_submit_audit s pdv operator supervisor prevention counted tef now).audit_result
          = some { pdv_number := pdv, difference := counted - tef,
                   counted_value := counted, tef_value := tef }) ∧
    (∀ s : AppState, (app_render_alert s).2.audit_result = none) ∧
    (∀ s : AppState, (app_render_alert (app_render_alert s).2).1 = none) ∧
    (∀ (s : AppState) (a : AlertData), s.audit_result = some a → (app_render_alert s).1 = some a) := by
  refine ⟨?_, ?_, ?_, ?_⟩
  · intro s pdv operator supervisor prevention counted tef now h1 h2 h3
    unfold app_submit_audit
    rw [if_neg (by simp [h1, h2, h3])]
  · intro s
    cases h : s.audit_result <;> simp [app_render_alert, h]
  · intro s
    cases h : s.audit_result <;> simp [app_render_alert, h]
  · intro s a h
    unfold app_render_alert
    rw [h]

/-- Witness for C9: a concrete create publishes its own payload, and two
consecutive renders from any fresh state display nothing the second time. -/
theorem C9_one_shot_alert_witness :
    (app_submit_audit init_state "5" "A" "B" "C" 100 120 0).audit_result
      = some { pdv_number := "5", difference := (100 : ℚ) - 120,
               counted_value := 100, tef_value := 120 } ∧
    (app_render_alert (app_render_alert init_state).2).1 = none :=
  ⟨C9_one_shot_alert.1 init_state "5" "A" "B" "C" 100 120 0
      (by decide) (by decide) (by decide),
   C9_one_shot_alert.2.2.1 init_state⟩

/-- C10: `save_audit` appends one row holding exactly the argument values — no
validation and no recomputation of the difference — and returns the
auto-assigned id; in particular empty personnel names, a negative amount and a
difference argument inconsistent with counted - tef are persisted as-is. -/
theorem C10_save_audit_verbatim :
    ∀ (db : LedgerDB) (pdv operator supervisor prevention : String)
      (counted expected difference tef : ℚ) (now : Nat),
      (save_audit db pdv operator supervisor prevention counted expected difference tef now).1.rows
        = db.rows ++
          [{ id := db.nextId, pdv_number := pdv, audit_datetime := now,
             operator_name := operator, supervisor_name := supervisor,
             prevention_name := prevention, counted_value := counted,
             expected_value := expected, difference := difference, tef_value := tef }] ∧
      (save_audit db pdv operator supervisor prevention counted expected difference tef now).2
        = db.nextId ∧
      (save_audit db pdv operator supervisor prevention counted expected difference tef now).1.nextId
        = db.nextId + 1 ∧
      ((save_audit db "" "" "" "" (-5) 0 7 3 now).1.rows.getLast?
        = some { id := db.nextId, pdv_number := "", audit_datetime := now,
                 operator_name := "", supervisor_name := "", prevention_name := "",
                 counted_value := -5, expected_value := 0, difference := 7, tef_value := 3 } ∧
       (7 : ℚ) ≠ (-5) - 3) := by
  intro db pdv operator supervisor prevention counted expected difference tef now
  refine ⟨rfl, rfl, rfl, ?_, by norm_num⟩
  simp [save_audit]
